import Mathlib

/-!
Verification development for the windowing and aggregation-configuration core
of the storey streaming library (file `storey/dtypes.py`).

The Python classes are shallowly embedded as Lean structures and executable
functions.  Python exceptions become the `Except StoreyError` monad; Python
floats that arise here (window periods, which are integers divided by 10) are
represented exactly as rationals; Python ints are `Nat`/`Int`.
-/

deriving instance DecidableEq for Except

/-- The kinds of Python exceptions raised by the code under study. -/
inductive StoreyError where
  | ValueError (msg : String)
  | TypeError (msg : String)
  | KeyError (key : String)
  | ZeroDivisionError
  | IndexError
deriving DecidableEq, Repr

/-- A dynamically typed Python value, as far as this module needs:
configuration mappings hold strings and integers. -/
inductive PyVal where
  | pyStr (s : String)
  | pyInt (n : Int)
deriving DecidableEq, Repr

/-- Rendering of a `PyVal` into an f-string, as Python would do. -/
def PyVal.render : PyVal → String
  | .pyStr s => s
  | .pyInt n => toString n

/-- A Python dict with string keys, embedded as an association list
(Python dicts have unique keys; all operations used here act on the first
occurrence of a key, which coincides with dict behaviour on unique keys). -/
def PyDict := List (String × PyVal)
deriving DecidableEq, Repr

/-- The dict method `d.pop(k)`: the value under `k` together with the dict
without that entry, or `none` when the key is absent. -/
def PyDict.pop (d : PyDict) (k : String) : Option (PyVal × PyDict) :=
  match d with
  | [] => none
  | (k', v) :: rest =>
    if k' = k then some (v, rest)
    else (PyDict.pop rest k).map (fun p => (p.1, (k', v) :: p.2))

/-- Milliseconds in one unit of duration: seconds, minutes, hours, days. -/
def unitMillis : Char → Option Nat
  | 's' => some 1000
  | 'm' => some 60000
  | 'h' => some 3600000
  | 'd' => some 86400000
  | _ => none

/-- Split a list into all-but-last and last element. -/
def splitLast : List Char → Option (List Char × Char)
  | [] => none
  | [c] => some ([], c)
  | c :: c' :: cs =>
    (splitLast (c' :: cs)).map (fun p => (c :: p.1, p.2))

/-- Parse a decimal digit string (accumulator form). -/
def parseNatAux : List Char → Nat → Option Nat
  | [], acc => some acc
  | c :: cs, acc =>
    if c.isDigit then parseNatAux cs (acc * 10 + (c.toNat - 48)) else none

/-- Modelled from the spec: `parse_duration` lives in the external
`storey.utils` module, which is not part of the sources under study.  Per the
spec a duration string is a non-negative integer followed by one unit
character from s, m, h, d; the result is milliseconds, and a parse failure is
a validation error propagated unchanged. -/
def parse_duration (s : String) : Except StoreyError Nat :=
  match splitLast s.data with
  | none => .error (.ValueError ("Invalid duration " ++ s))
  | some (digits, u) =>
    match unitMillis u, (if digits = [] then none else parseNatAux digits 0) with
    | some m, some n => .ok (n * m)
    | _, _ => .error (.ValueError ("Invalid duration " ++ s))

/-- Modelled from the spec: `get_one_unit_of_duration` lives in the external
`storey.utils` module.  It yields the length in milliseconds of one calendar
unit of the duration string (for example one hour for the string 2h). -/
def get_one_unit_of_duration (s : String) : Nat :=
  match splitLast s.data with
  | some p => (unitMillis p.2).getD 0
  | none => 0

/-- Modelled from the spec: the constant `bucketPerWindow` from the external
`storey.utils` module; the spec fixes ten periods per window. -/
def bucketPerWindow : Nat := 10

/-- Python `int(a / p)` for a non-negative integer `a` and a positive
rational `p` (true division followed by truncation toward zero, which on
non-negative values is the floor): multiply by the denominator and use
integer division by the numerator.  The zero and negative cases never reach
this function; callers raise ZeroDivisionError on a zero divisor first. -/
def pyIntDiv (a : Nat) (p : ℚ) : Nat := (a * p.den) / p.num.toNat

/-- Python class `WindowBase`: one window/period pair.  The period can be a
Python float (a window divided by 10), represented exactly as a rational. -/
structure WindowBase where
  window_millis : Nat
  period_millis : ℚ
  window_str : String
deriving DecidableEq, Repr

/-- Python class `FixedWindow`: the interval is divided into
`bucketPerWindow` periods. -/
def FixedWindow.init (window : String) : Except StoreyError WindowBase :=
  match parse_duration window with
  | .error e => .error e
  | .ok window_millis =>
    .ok ⟨window_millis, mkRat window_millis bucketPerWindow, window⟩

/-- Python class `SlidingWindow`: fails when the period does not evenly
divide the window. -/
def SlidingWindow.init (window : String) (period : String) : Except StoreyError WindowBase :=
  match parse_duration window, parse_duration period with
  | .error e, _ => .error e
  | .ok _, .error e => .error e
  | .ok window_millis, .ok period_millis =>
    if period_millis = 0 then .error .ZeroDivisionError
    else if window_millis % period_millis = 0 then
      .ok ⟨window_millis, mkRat period_millis 1, window⟩
    else .error (.ValueError "period must be a divider of the window")

/-- numpy lcm.reduce over the window lengths of a tuple list
(`get_window_optimal_size_millis` in the source). -/
def lcmReduce : List Nat → Nat
  | [] => 0
  | x :: xs => xs.foldl Nat.lcm x

/-- numpy gcd.reduce over the window lengths of a tuple list
(`get_window_optimal_period_millis` in the source). -/
def gcdReduce : List Nat → Nat
  | [] => 0
  | x :: xs => xs.foldl Nat.gcd x

def get_window_optimal_size_millis (windows_tuples : List (Nat × String)) : Nat :=
  lcmReduce (windows_tuples.map Prod.fst)

def get_window_optimal_period_millis (windows_tuples : List (Nat × String)) : Nat :=
  gcdReduce (windows_tuples.map Prod.fst)

/-- Python class `WindowsBase`: the combined bucket layout of a window set. -/
structure WindowsBase where
  max_window_millis : Nat
  smallest_window_millis : Nat
  period_millis : ℚ
  windows : List (Nat × String)
  window_millis : Nat
  total_number_of_buckets : Nat
deriving DecidableEq, Repr

/-- Python `WindowsBase.__init__`.  `windows[-1]` raises IndexError on an
empty list (unreachable through the public constructors, which reject empty
window lists first); `int(window_millis / period_millis)` raises
ZeroDivisionError when the period is zero, and otherwise truncates the
(non-negative) quotient, i.e. takes its floor. -/
def WindowsBase.init (period : ℚ) : List (Nat × String) → Except StoreyError WindowsBase
  | [] => .error .IndexError
  | w :: ws =>
    let window_millis := get_window_optimal_size_millis (w :: ws)
    if period.num = 0 then .error .ZeroDivisionError
    else
      .ok
        { max_window_millis := (ws.getLastD w).1
          smallest_window_millis := w.1
          period_millis := period
          windows := w :: ws
          window_millis := window_millis
          total_number_of_buckets := pyIntDiv window_millis period }

/-- The window-appending loop of `WindowsBase.merge`: each window of the
argument not already present (by tuple equality) is appended on the right;
the boolean records whether anything was appended.  The membership test runs
against the growing list, exactly as the Python loop mutates
`self.windows` while iterating over `new.windows`. -/
def merge_windows (self_windows : List (Nat × String)) :
    List (Nat × String) → List (Nat × String) × Bool
  | [] => (self_windows, false)
  | w :: ws =>
    if w ∈ self_windows then merge_windows self_windows ws
    else ((merge_windows (self_windows ++ [w]) ws).1, true)

/-- Python `WindowsBase.merge`.  Note that the final
`sorted(set(self.windows), key=...)` of the source discards its result, so it
has no effect on the state and is omitted here; and that `window_millis` is
never updated. -/
def WindowsBase.merge (self new : WindowsBase) : Except StoreyError WindowsBase :=
  if self.period_millis = new.period_millis then
    if (merge_windows self.windows new.windows).2 then
      .ok
        { self with
          windows := (merge_windows self.windows new.windows).1
          max_window_millis :=
            if self.max_window_millis < new.max_window_millis then
              new.max_window_millis
            else self.max_window_millis
          smallest_window_millis :=
            if new.smallest_window_millis < self.smallest_window_millis then
              new.smallest_window_millis
            else self.smallest_window_millis
          total_number_of_buckets :=
            if self.total_number_of_buckets < new.total_number_of_buckets then
              new.total_number_of_buckets
            else self.total_number_of_buckets }
    else .ok { self with windows := (merge_windows self.windows new.windows).1 }
  else .error (.ValueError "Cannot use different periods for same aggregation")

/-- Parsing of a list of duration strings into (milliseconds, label) tuples,
left to right, stopping at the first failure (the list comprehension in
`sort_windows_and_convert_to_millis`). -/
def parseWindows : List String → Except StoreyError (List (Nat × String))
  | [] => .ok []
  | w :: ws =>
    match parse_duration w, parseWindows ws with
    | .error e, _ => .error e
    | .ok _, .error e => .error e
    | .ok ms, .ok rest => .ok ((ms, w) :: rest)

/-- Stable insertion of a tuple into a list sorted ascending by length. -/
def insertWin (x : Nat × String) : List (Nat × String) → List (Nat × String)
  | [] => [x]
  | y :: ys => if x.1 ≤ y.1 then x :: y :: ys else y :: insertWin x ys

/-- Stable sort ascending by window length, the effect of Python
`list.sort(key=lambda tup: tup[0])`. -/
def sortWins : List (Nat × String) → List (Nat × String)
  | [] => []
  | x :: xs => insertWin x (sortWins xs)

/-- The argument of `sort_windows_and_convert_to_millis`: Python accepts
either a list of duration strings or a list of pre-parsed tuples,
distinguished by an isinstance check on the first element. -/
inductive WindowsArg where
  | strs (l : List String)
  | tups (l : List (Nat × String))
deriving DecidableEq, Repr

/-- Python `sort_windows_and_convert_to_millis`: rejects the empty list;
parses and sorts duration strings; passes tuple lists through unchanged
(no sorting, no deduplication). -/
def sort_windows_and_convert_to_millis : WindowsArg → Except StoreyError (List (Nat × String))
  | .strs ws =>
    if ws = [] then .error (.ValueError "Windows list can not be empty")
    else
      match parseWindows ws with
      | .error e => .error e
      | .ok ts => .ok (sortWins ts)
  | .tups ts =>
    if ts = [] then .error (.ValueError "Windows list can not be empty")
    else .ok ts

/-- Python class `FixedWindows`: a window set with the extra field
`smallest_window_unit_millis`. -/
structure FixedWindows where
  toWindowsBase : WindowsBase
  smallest_window_unit_millis : Nat
deriving DecidableEq, Repr

/-- Python `FixedWindows.__init__` (reachable both with strings from callers
and with tuple lists from `FixedWindows.merge`).  The period is the gcd of
all window lengths divided by `bucketPerWindow` (float division, exact as a
rational). -/
def FixedWindows.ofArg (arg : WindowsArg) : Except StoreyError FixedWindows :=
  match sort_windows_and_convert_to_millis arg with
  | .error e => .error e
  | .ok windows_tuples =>
    let unit := get_one_unit_of_duration ((windows_tuples.headD (0, "")).2)
    let period : ℚ := mkRat (get_window_optimal_period_millis windows_tuples) bucketPerWindow
    match WindowsBase.init period windows_tuples with
    | .error e => .error e
    | .ok base => .ok ⟨base, unit⟩

/-- Python `SlidingWindows.__init__`.  An explicit non-falsy period must
evenly divide every window (checked before the base initialiser runs; a zero
period raises ZeroDivisionError at the first modulo); otherwise the period is
one calendar unit of the smallest window divided by `bucketPerWindow`.
The Python error message also names the period and the offending window;
the message is abbreviated to its fixed prefix here. -/
def SlidingWindows.init (windows : List String) (period : Option String) :
    Except StoreyError WindowsBase :=
  match sort_windows_and_convert_to_millis (.strs windows) with
  | .error e => .error e
  | .ok windows_tuples =>
    let derived : Except StoreyError WindowsBase :=
      let unit := get_one_unit_of_duration ((windows_tuples.headD (0, "")).2)
      WindowsBase.init (mkRat unit bucketPerWindow) windows_tuples
    match period with
    | none => derived
    | some p =>
      -- Python tests the period for truthiness: an empty string is falsy.
      if p = "" then derived
      else
        match parse_duration p with
        | .error e => .error e
        | .ok period_millis =>
          if period_millis = 0 then .error .ZeroDivisionError
          else if windows_tuples.all (fun w => w.1 % period_millis = 0) then
            WindowsBase.init (mkRat period_millis 1) windows_tuples
          else .error (.ValueError "Period must be a divisor of every window")

/-- A window set as passed around dynamically in Python: either a
`FixedWindows` or a `SlidingWindows` (the latter adds no fields beyond
`WindowsBase`). -/
inductive WindowSet where
  | fixed (w : FixedWindows)
  | sliding (w : WindowsBase)
deriving DecidableEq, Repr

def WindowSet.toWindowsBase : WindowSet → WindowsBase
  | .fixed w => w.toWindowsBase
  | .sliding w => w

def WindowSet.period_millis (s : WindowSet) : ℚ :=
  s.toWindowsBase.period_millis

def WindowSet.windows (s : WindowSet) : List (Nat × String) :=
  s.toWindowsBase.windows

def WindowSet.isSliding : WindowSet → Bool
  | .sliding _ => true
  | .fixed _ => false

def WindowSet.isFixed : WindowSet → Bool
  | .fixed _ => true
  | .sliding _ => false

/-- Python `FixedWindows.merge`: a FixedWindows argument goes through the
base merge (keeping `smallest_window_unit_millis`); any other argument makes
the receiver re-run `__init__` on the argument's windows tuples, with no
period comparison at all. -/
def FixedWindows.merge (self : FixedWindows) (new : WindowSet) :
    Except StoreyError FixedWindows :=
  match new with
  | .fixed nf =>
    match WindowsBase.merge self.toWindowsBase nf.toWindowsBase with
    | .error e => .error e
    | .ok base => .ok ⟨base, self.smallest_window_unit_millis⟩
  | .sliding ns => FixedWindows.ofArg (.tups ns.windows)

/-- Merge on dynamically typed window sets: `SlidingWindows` inherits the
base merge; `FixedWindows` overrides it as above. -/
def WindowSet.merge : WindowSet → WindowSet → Except StoreyError WindowSet
  | .fixed f, b =>
    match FixedWindows.merge f b with
    | .error e => .error e
    | .ok f' => .ok (.fixed f')
  | .sliding s, b =>
    match WindowsBase.merge s b.toWindowsBase with
    | .error e => .error e
    | .ok s' => .ok (.sliding s')

/-- Python enum `EmissionType`. -/
inductive EmissionType where
  | All
  | Incremental
deriving DecidableEq, Repr

/-- The Python `EmitPolicy` class hierarchy, flattened into one closed type.
Variant-specific fields hold the dynamically typed values taken from a
configuration mapping; defaults mirror the Python constructors
(`EmitAfterMaxEvent` defaults `timeout_secs` to None, every constructor
defaults `emission_type` to All). -/
inductive EmitPolicy where
  | EveryEvent (emission_type : EmissionType)
  | AfterPeriod (delay_in_seconds : PyVal) (emission_type : EmissionType)
  | AfterWindow (delay_in_seconds : PyVal) (emission_type : EmissionType)
  | AfterMaxEvent (max_events : PyVal) (timeout_secs : Option PyVal) (emission_type : EmissionType)
  | AfterDelay (delay_in_seconds : PyVal) (emission_type : EmissionType)
deriving DecidableEq, Repr

/-- The mode-dispatched construction step of `_dict_to_emit_policy`: given
the already popped `mode` value and the remaining mapping, build the variant
and return it with the still unconsumed entries.  Missing required fields
raise; an unrecognised mode raises a TypeError naming the value. -/
def build_emit_policy (mode : PyVal) (d : PyDict) :
    Except StoreyError (EmitPolicy × PyDict) :=
  if mode = .pyStr "everyEvent" then .ok (.EveryEvent .All, d)
  else if mode = .pyStr "maxEvents" then
    match d.pop "maxEvents" with
    | none => .error (.ValueError "maxEvents parameter must be specified for maxEvents emit policy")
    | some (v, d') => .ok (.AfterMaxEvent v none .All, d')
  else if mode = .pyStr "afterDelay" then
    match d.pop "delay" with
    | none => .error (.ValueError "delay parameter must be specified for afterDelay emit policy")
    | some (v, d') => .ok (.AfterDelay v .All, d')
  else if mode = .pyStr "afterWindow" then
    match d.pop "delay" with
    | none => .ok (.AfterWindow (.pyInt 0) .All, d)
    | some (v, d') => .ok (.AfterWindow v .All, d')
  else if mode = .pyStr "afterPeriod" then
    match d.pop "delay" with
    | none => .ok (.AfterPeriod (.pyInt 0) .All, d)
    | some (v, d') => .ok (.AfterPeriod v .All, d')
  else .error (.TypeError ("unsupported emit policy type: " ++ mode.render))

/-- Python `_dict_to_emit_policy`: pop the `mode` discriminator (KeyError if
absent), build the variant, then fail if any entries of the mapping were not
consumed.  The Python message for leftovers also renders the remaining dict;
the message is abbreviated to its fixed prefix here. -/
def dict_to_emit_policy (policy_dict : PyDict) : Except StoreyError EmitPolicy :=
  match policy_dict.pop "mode" with
  | none => .error (.KeyError "mode")
  | some (mode, d0) =>
    match build_emit_policy mode d0 with
    | .error e => .error e
    | .ok (policy, leftover) =>
      if leftover = [] then .ok policy
      else .error (.ValueError "got unexpected arguments for emit policy")

/-- A point on the UTC timeline, measured in seconds since the Unix epoch
(rationals give exact sub-second precision). -/
def Datetime := ℚ
deriving DecidableEq, Repr

/-- Python `datetime.utcfromtimestamp`: the UTC instant at the given number
of epoch seconds. -/
def datetime_utcfromtimestamp (n : Int) : Datetime := (n : ℚ)

/-- The spec side of claim C9, from its words: the UTC instant n seconds
after the Unix epoch. -/
def epochPlusSeconds (n : Int) : Datetime := (n : ℚ)

/-- The dynamically typed `time` argument of `Event.__init__`: a datetime, an
ISO-format string (represented by the datetime the external
`datetime.fromisoformat` parser yields for it), an integer of epoch seconds,
or a value of any other type (which is rejected). -/
inductive TimeParam where
  | dt (d : Datetime)
  | iso (d : Datetime)
  | int (n : Int)
  | other
deriving DecidableEq, Repr

/-- Python class `Event` (the fields relevant to its constructor;
`_awaitable_result` carries no observable state and is omitted). -/
structure Event where
  body : PyVal
  key : Option PyVal
  time : Datetime
  id : Option String
  headers : Option PyDict
  method : Option String
  path : Option String
  content_type : Option PyVal
  error : Option PyVal
deriving DecidableEq, Repr

/-- Python `Event.__init__`.  `now` stands for `datetime.now(timezone.utc)`,
read from the wall clock.  A datetime object is always truthy in Python, so
the `time or now` fallback takes `now` exactly when no time argument was
given.  The Python TypeError message also renders the offending type; the
message is abbreviated to its fixed prefix here. -/
def Event.init (now : Datetime) (body : PyVal) (key : Option PyVal)
    (time : Option TimeParam) (id : Option String) (headers : Option PyDict)
    (method : Option String) (path : Option String) (content_type : Option PyVal) :
    Except StoreyError Event :=
  let converted : Except StoreyError (Option Datetime) :=
    match time with
    | none => .ok none
    | some (.dt d) => .ok (some d)
    | some (.iso d) => .ok (some d)
    | some (.int n) => .ok (some (datetime_utcfromtimestamp n))
    | some .other => .error (.TypeError "Event time parameter must be a datetime, string, or int.")
  match converted with
  | .error e => .error e
  | .ok t =>
    .ok
      { body := body
        key := key
        time := t.getD now
        id := id
        headers := headers
        method := method
        path := path
        content_type := content_type
        error := none }

/-- Python class `FieldAggregator`.  `value_extractor` and `aggr_filter` are
caller-supplied functions over events (a string-valued `field` becomes a
body lookup closure; an embedding of that closure is inlined into
`value_extractor` since the body payload is opaque here). -/
structure FieldAggregator where
  name : String
  value_extractor : Option (Event → PyVal)
  aggregations : List String
  windows : WindowSet
  aggr_filter : Option (Event → Bool)
  max_value : Option ℚ

/-- Python `FieldAggregator.should_aggregate`: a set filter is a callable and
hence always truthy, so the `if not self.aggr_filter` test is exactly a test
for the filter being None. -/
def FieldAggregator.should_aggregate (fa : FieldAggregator) (element : Event) : Bool :=
  match fa.aggr_filter with
  | none => true
  | some f => f element

/-- Whether an `Except` computation succeeded. -/
def exceptIsOk {α : Type} : Except StoreyError α → Bool
  | .ok _ => true
  | .error _ => false

/-- The value of FixedWindows of 1h: derived period 360000 ms. -/
def fixedSet1h : FixedWindows :=
  ⟨⟨3600000, 3600000, 360000, [(3600000, "1h")], 3600000, 10⟩, 3600000⟩

/-- The value of FixedWindows of 1h seen as a plain window set. -/
def fixedBase1h : WindowsBase :=
  ⟨3600000, 3600000, 360000, [(3600000, "1h")], 3600000, 10⟩

/-- The value of FixedWindows of 3h: derived period 1080000 ms. -/
def fixedSet3h : FixedWindows :=
  ⟨⟨10800000, 10800000, 1080000, [(10800000, "3h")], 10800000, 10⟩, 3600000⟩

/-- The window-set value of FixedWindows of 1h and 2h:
derived period 360000 ms, combined span 7200000 ms. -/
def fixedBase1h2h : WindowsBase :=
  ⟨7200000, 3600000, 360000, [(3600000, "1h"), (7200000, "2h")], 7200000, 20⟩

/-- The state of FixedWindows of 1h after merging in FixedWindows of 1h
and 2h: note `window_millis` kept at 3600000 while the bucket count was
widened to 20. -/
def mergedBase12 : WindowsBase :=
  ⟨7200000, 3600000, 360000, [(3600000, "1h"), (7200000, "2h")], 3600000, 20⟩

/-- The value of SlidingWindows of 1h with explicit period 30m. -/
def slidingW1h30m : WindowsBase :=
  ⟨3600000, 3600000, 1800000, [(3600000, "1h")], 3600000, 2⟩

/-- The value of SlidingWindows of 1h with explicit period 6m. -/
def slidingW1h6m : WindowsBase :=
  ⟨3600000, 3600000, 360000, [(3600000, "1h")], 3600000, 10⟩

/-- The value of SlidingWindows of 1h and 2h with explicit period 30m. -/
def slidingSet1h2h : WindowsBase :=
  ⟨7200000, 3600000, 1800000, [(3600000, "1h"), (7200000, "2h")], 7200000, 4⟩

/-- The window-list invariant as the spec words it: lengths sorted ascending
and no duplicate lengths. -/
def windowsInvariant (l : List (Nat × String)) : Prop :=
  (l.map Prod.fst).Sorted (· ≤ ·) ∧ (l.map Prod.fst).Nodup

/-- The window-set value of FixedWindows of 2h and 3h. -/
def fixedBase2h3h : WindowsBase :=
  ⟨10800000, 7200000, 360000, [(7200000, "2h"), (10800000, "3h")], 21600000, 60⟩

/-- The state of FixedWindows of 2h and 3h after merging in FixedWindows of
1h: the appended 1h window sits at the end, out of order. -/
def mergedBase2h3h1h : WindowsBase :=
  ⟨10800000, 3600000, 360000,
    [(7200000, "2h"), (10800000, "3h"), (3600000, "1h")], 21600000, 60⟩

/-- The value of FixedWindows of 1h and 60m: two windows of equal length. -/
def fixedBase1h60m : WindowsBase :=
  ⟨3600000, 3600000, 360000, [(3600000, "1h"), (3600000, "60m")], 3600000, 10⟩

def fixedSet1h2h6h : FixedWindows :=
  ⟨⟨21600000, 3600000, 360000,
    [(3600000, "1h"), (7200000, "2h"), (21600000, "6h")], 21600000, 60⟩, 3600000⟩

/-! ### Helper lemmas -/

theorem merge_windows_subset (ws : List (Nat × String)) :
    ∀ s : List (Nat × String), (∀ w ∈ ws, w ∈ s) → merge_windows s ws = (s, false) := by
  induction ws with
  | nil => intro s _; rfl
  | cons w ws ih =>
    intro s h
    have hw : w ∈ s := h w (List.mem_cons_self w ws)
    simp only [merge_windows, if_pos hw]
    exact ih s (fun u hu => h u (List.mem_cons_of_mem w hu))

theorem merge_windows_found (ws : List (Nat × String)) :
    ∀ s : List (Nat × String), (∃ w ∈ ws, w ∉ s) → (merge_windows s ws).2 = true := by
  induction ws with
  | nil => intro s h; simp at h
  | cons w ws ih =>
    intro s h
    by_cases hw : w ∈ s
    · simp only [merge_windows, if_pos hw]
      obtain ⟨u, hu, hus⟩ := h
      rcases List.mem_cons.mp hu with rfl | hu'
      · exact absurd hw hus
      · exact ih s ⟨u, hu', hus⟩
    · simp only [merge_windows, if_neg hw]

theorem windowsBase_merge_eq_periods_subset (A B : WindowsBase)
    (hper : A.period_millis = B.period_millis)
    (hsub : ∀ w ∈ B.windows, w ∈ A.windows) :
    A.merge B = .ok A := by
  unfold WindowsBase.merge
  rw [if_pos hper, merge_windows_subset B.windows A.windows hsub]
  rfl

theorem windowsBase_merge_ne_periods (A B : WindowsBase)
    (hper : A.period_millis ≠ B.period_millis) :
    A.merge B = .error (.ValueError "Cannot use different periods for same aggregation") := by
  unfold WindowsBase.merge
  rw [if_neg hper]

theorem mem_insertWin (x y : Nat × String) (l : List (Nat × String)) :
    y ∈ insertWin x l ↔ y = x ∨ y ∈ l := by
  induction l with
  | nil => simp [insertWin]
  | cons a l ih =>
    by_cases h : x.1 ≤ a.1
    · simp [insertWin, if_pos h]
    · simp [insertWin, if_neg h, ih]
      tauto

theorem mem_sortWins (y : Nat × String) (l : List (Nat × String)) :
    y ∈ sortWins l ↔ y ∈ l := by
  induction l with
  | nil => simp [sortWins]
  | cons a l ih => simp [sortWins, mem_insertWin, ih]

theorem sortWins_ne_nil (l : List (Nat × String)) (h : l ≠ []) : sortWins l ≠ [] := by
  cases l with
  | nil => exact absurd rfl h
  | cons a l =>
    intro hcon
    have : a ∈ sortWins (a :: l) := (mem_sortWins a (a :: l)).mpr (List.mem_cons_self a l)
    rw [hcon] at this
    exact List.not_mem_nil a this

theorem foldl_gcd_dvd (xs : List Nat) : ∀ a : Nat, xs.foldl Nat.gcd a ∣ a := by
  induction xs with
  | nil => intro a; exact dvd_refl a
  | cons x xs ih =>
    intro a
    exact dvd_trans (ih (Nat.gcd a x)) (Nat.gcd_dvd_left a x)

theorem dvd_foldl_lcm (xs : List Nat) : ∀ a : Nat, a ∣ xs.foldl Nat.lcm a := by
  induction xs with
  | nil => intro a; exact dvd_refl a
  | cons x xs ih =>
    intro a
    exact dvd_trans (Nat.dvd_lcm_left a x) (ih (Nat.lcm a x))

theorem gcdReduce_dvd_lcmReduce (l : List Nat) (h : l ≠ []) : gcdReduce l ∣ lcmReduce l := by
  cases l with
  | nil => exact absurd rfl h
  | cons x xs =>
    exact dvd_trans (foldl_gcd_dvd xs x) (dvd_foldl_lcm xs x)

/-! ### Claim C1 -/

/-- C1, counterexample: a `FixedWindows` receiver with a `SlidingWindows`
argument of a different period does not raise; it silently rebuilds itself
from the argument's windows, so the claim as stated is false.  Concretely,
FixedWindows with windows 1h (derived period 360000 ms) merged with
SlidingWindows of windows 1h and explicit period 30m (1800000 ms) succeeds. -/
theorem c1_counterexample :
    FixedWindows.ofArg (.strs ["1h"]) = .ok fixedSet1h ∧
    SlidingWindows.init ["1h"] (some "30m") = .ok slidingW1h30m ∧
    WindowSet.period_millis (.fixed fixedSet1h) ≠ WindowSet.period_millis (.sliding slidingW1h30m) ∧
    exceptIsOk (WindowSet.merge (.fixed fixedSet1h) (.sliding slidingW1h30m)) = true :=
  ⟨by decide, by decide, by decide, by decide⟩

/-- C1 (amended): whenever the merge dispatches to the shared base merge —
that is, the receiver is a sliding window set, or both sets are fixed — a
difference in periods always raises the ValueError of
`WindowsBase.merge` and the merge never succeeds; only a `FixedWindows`
receiver with a non-FixedWindows argument bypasses the period check by
rebuilding itself from the argument's windows. -/
theorem c1_base_merge_rejects_differing_periods (A B : WindowSet)
    (hd : A.isSliding = true ∨ B.isFixed = true)
    (hne : A.period_millis ≠ B.period_millis) :
    A.merge B = .error (.ValueError "Cannot use different periods for same aggregation") := by
  cases A with
  | sliding s =>
    have h := windowsBase_merge_ne_periods s B.toWindowsBase hne
    simp only [WindowSet.merge, h]
  | fixed f =>
    cases B with
    | fixed bf =>
      have h := windowsBase_merge_ne_periods f.toWindowsBase bf.toWindowsBase hne
      simp only [WindowSet.merge, FixedWindows.merge, h]
    | sliding bs => simp [WindowSet.isSliding, WindowSet.isFixed] at hd

/-- C1, witness: two fixed window sets with periods 360000 ms and 1080000 ms
are rejected by merge. -/
theorem c1_witness :
    WindowSet.merge (.fixed fixedSet1h) (.fixed fixedSet3h) =
      .error (.ValueError "Cannot use different periods for same aggregation") :=
  c1_base_merge_rejects_differing_periods (.fixed fixedSet1h) (.fixed fixedSet3h)
    (Or.inr rfl) (by decide)

/-! ### Claim C2 -/

/-- C2, counterexample: merging FixedWindows 1h with FixedWindows 1h, 2h
(same period 360000 ms) adds the 2h window, but the combined span
`window_millis` of the receiver stays 3600000 ms instead of widening to
max(3600000, 7200000) = 7200000 ms, so the claim as stated is false. -/
theorem c2_counterexample :
    FixedWindows.ofArg (.strs ["1h"]) = .ok ⟨fixedBase1h, 3600000⟩ ∧
    FixedWindows.ofArg (.strs ["1h", "2h"]) = .ok ⟨fixedBase1h2h, 3600000⟩ ∧
    fixedBase1h.period_millis = fixedBase1h2h.period_millis ∧
    (∃ w ∈ fixedBase1h2h.windows, w ∉ fixedBase1h.windows) ∧
    WindowsBase.merge fixedBase1h fixedBase1h2h = .ok mergedBase12 ∧
    mergedBase12.window_millis ≠ max fixedBase1h.window_millis fixedBase1h2h.window_millis :=
  ⟨by decide, by decide, by decide, by decide, by decide, by decide⟩

/-- C2 (amended): for every successful base merge that adds at least one
window from B, the receiver's max window, smallest window and bucket count
are recomputed by widening (max of old and new, min for the smallest
window), but the combined window span `window_millis` is not recomputed: it
keeps its old value (as does the period). -/
theorem c2_merge_widens_except_window_span (A B C : WindowsBase)
    (hok : A.merge B = .ok C)
    (hnew : ∃ w ∈ B.windows, w ∉ A.windows) :
    C.max_window_millis = max A.max_window_millis B.max_window_millis ∧
    C.smallest_window_millis = min A.smallest_window_millis B.smallest_window_millis ∧
    C.total_number_of_buckets = max A.total_number_of_buckets B.total_number_of_buckets ∧
    C.window_millis = A.window_millis ∧
    C.period_millis = A.period_millis := by
  unfold WindowsBase.merge at hok
  by_cases hper : A.period_millis = B.period_millis
  · rw [if_pos hper] at hok
    have hf : (merge_windows A.windows B.windows).2 = true :=
      merge_windows_found B.windows A.windows hnew
    rw [if_pos hf] at hok
    have hC := Except.ok.inj hok
    subst hC
    refine ⟨?_, ?_, ?_, rfl, rfl⟩ <;> simp only [] <;> split_ifs <;> omega
  · rw [if_neg hper] at hok
    exact absurd hok (by simp)

/-- C2, witness: the amended statement at the concrete merge of the 1h set
with the 1h, 2h set. -/
theorem c2_witness :
    mergedBase12.max_window_millis = max fixedBase1h.max_window_millis fixedBase1h2h.max_window_millis ∧
    mergedBase12.smallest_window_millis =
      min fixedBase1h.smallest_window_millis fixedBase1h2h.smallest_window_millis ∧
    mergedBase12.total_number_of_buckets =
      max fixedBase1h.total_number_of_buckets fixedBase1h2h.total_number_of_buckets ∧
    mergedBase12.window_millis = fixedBase1h.window_millis ∧
    mergedBase12.period_millis = fixedBase1h.period_millis :=
  c2_merge_widens_except_window_span fixedBase1h fixedBase1h2h mergedBase12 (by decide)
    ⟨(7200000, "2h"), by decide, by decide⟩

/-! ### Claim C5 -/

/-- C5, counterexample: a `FixedWindows` receiver merged with a
`SlidingWindows` argument of equal period (360000 ms) whose only window 1h
already appears in the receiver is not a no-op: the receiver is rebuilt from
the argument's windows and loses its 2h window, so the claim as stated is
false. -/
theorem c5_counterexample :
    FixedWindows.ofArg (.strs ["1h", "2h"]) = .ok ⟨fixedBase1h2h, 3600000⟩ ∧
    SlidingWindows.init ["1h"] (some "6m") = .ok slidingW1h6m ∧
    WindowSet.period_millis (.fixed ⟨fixedBase1h2h, 3600000⟩) =
      WindowSet.period_millis (.sliding slidingW1h6m) ∧
    (∀ w ∈ WindowSet.windows (.sliding slidingW1h6m),
      w ∈ WindowSet.windows (.fixed ⟨fixedBase1h2h, 3600000⟩)) ∧
    WindowSet.merge (.fixed ⟨fixedBase1h2h, 3600000⟩) (.sliding slidingW1h6m) ≠
      .ok (.fixed ⟨fixedBase1h2h, 3600000⟩) :=
  ⟨by decide, by decide, by decide, by decide, by decide⟩

/-- C5 (amended): whenever the merge dispatches to the shared base merge —
the receiver is a sliding window set, or both sets are fixed — a merge whose
argument has the same period and whose windows all already appear in the
receiver leaves the receiver completely unchanged; in particular repeated
self-merge is a no-op.  Only a `FixedWindows` receiver with a
non-FixedWindows argument escapes this, by rebuilding itself from the
argument's windows. -/
theorem c5_subset_merge_is_noop (A B : WindowSet)
    (hd : A.isSliding = true ∨ B.isFixed = true)
    (hper : A.period_millis = B.period_millis)
    (hsub : ∀ w ∈ B.windows, w ∈ A.windows) :
    A.merge B = .ok A := by
  cases A with
  | sliding s =>
    have h := windowsBase_merge_eq_periods_subset s B.toWindowsBase hper hsub
    simp only [WindowSet.merge, h]
  | fixed f =>
    cases B with
    | fixed bf =>
      have h := windowsBase_merge_eq_periods_subset f.toWindowsBase bf.toWindowsBase hper hsub
      simp only [WindowSet.merge, FixedWindows.merge, h]
    | sliding bs => simp [WindowSet.isSliding, WindowSet.isFixed] at hd

/-- C5, witness: self-merge of a sliding window set is a no-op. -/
theorem c5_witness :
    WindowSet.merge (.sliding slidingSet1h2h) (.sliding slidingSet1h2h) =
      .ok (.sliding slidingSet1h2h) :=
  c5_subset_merge_is_noop (.sliding slidingSet1h2h) (.sliding slidingSet1h2h)
    (Or.inl rfl) rfl (fun _ hw => hw)

/-! ### Claims C3 and C4 -/

/-- C3: the code violates the window-list invariant.  Merging FixedWindows
of 2h and 3h with FixedWindows of 1h (equal periods 360000 ms) appends the
1h window at the end and leaves the list unsorted — the source computes
sorted(set(self.windows), key=...) but discards the result — and
construction from the strings 1h and 60m yields two windows of the same
length, so deduplication of lengths fails as well. -/
theorem c3_windows_invariant_violated :
    FixedWindows.ofArg (.strs ["2h", "3h"]) = .ok ⟨fixedBase2h3h, 3600000⟩ ∧
    FixedWindows.ofArg (.strs ["1h"]) = .ok fixedSet1h ∧
    fixedBase2h3h.period_millis = fixedBase1h.period_millis ∧
    WindowsBase.merge fixedBase2h3h fixedBase1h = .ok mergedBase2h3h1h ∧
    ¬ windowsInvariant mergedBase2h3h1h.windows ∧
    FixedWindows.ofArg (.strs ["1h", "60m"]) = .ok ⟨fixedBase1h60m, 3600000⟩ ∧
    ¬ windowsInvariant fixedBase1h60m.windows :=
  ⟨by decide, by decide, by decide, by decide,
    by simp [windowsInvariant, mergedBase2h3h1h],
    by decide,
    by simp [windowsInvariant, fixedBase1h60m]⟩

/-- Truncating division by a positive rational is the floor of the exact
quotient. -/
theorem pyIntDiv_eq_floor (a : Nat) (q : ℚ) (hq : 0 < q) :
    pyIntDiv a q = ⌊(a : ℚ) / q⌋₊ := by
  have hnum : 0 < q.num := Rat.num_pos.mpr hq
  have hcast : ((q.num.toNat : ℕ) : ℚ) = ((q.num : ℤ) : ℚ) := by
    norm_cast
    exact Int.toNat_of_nonneg hnum.le
  have key : (a : ℚ) / q = ((a * q.den : ℕ) : ℚ) / ((q.num.toNat : ℕ) : ℚ) := by
    rw [hcast]
    conv_lhs => rw [← Rat.num_div_den q]
    push_cast
    rw [div_div_eq_mul_div]
  rw [key, Nat.floor_div_nat, Nat.floor_natCast]
  rfl

/-- What a successful base initialisation pins down. -/
theorem windowsBase_init_fields (period : ℚ) (l : List (Nat × String)) (W : WindowsBase)
    (h : WindowsBase.init period l = .ok W) :
    period.num ≠ 0 ∧ W.period_millis = period ∧ W.windows = l ∧
    W.window_millis = lcmReduce (l.map Prod.fst) ∧
    W.total_number_of_buckets = pyIntDiv (lcmReduce (l.map Prod.fst)) period := by
  cases l with
  | nil => exact absurd h (by simp [WindowsBase.init])
  | cons w ws =>
    by_cases hz : period.num = 0
    · exact absurd h (by simp [WindowsBase.init, hz])
    · simp only [WindowsBase.init, if_neg hz] at h
      have hW := Except.ok.inj h
      subst hW
      exact ⟨hz, rfl, rfl, rfl, rfl⟩

theorem parseWindows_ne_nil (ws : List String) (wt : List (Nat × String))
    (hne : ws ≠ []) (h : parseWindows ws = .ok wt) : wt ≠ [] := by
  cases ws with
  | nil => exact absurd rfl hne
  | cons w rest =>
    unfold parseWindows at h
    cases hw : parse_duration w <;> rw [hw] at h
    · cases h
    · cases hr : parseWindows rest <;> rw [hr] at h
      · cases h
      · have := Except.ok.inj h
        rw [← this]
        exact List.cons_ne_nil _ _

theorem sort_windows_strs_ok (ws : List String) (wt : List (Nat × String))
    (h : sort_windows_and_convert_to_millis (.strs ws) = .ok wt) :
    ∃ pt, parseWindows ws = .ok pt ∧ wt = sortWins pt ∧ wt ≠ [] := by
  simp only [sort_windows_and_convert_to_millis] at h
  by_cases hne : ws = []
  · rw [if_pos hne] at h
    exact Except.noConfusion h
  · rw [if_neg hne] at h
    cases hp : parseWindows ws with
    | error e =>
      rw [hp] at h
      exact Except.noConfusion h
    | ok pt =>
      rw [hp] at h
      have hwt := Except.ok.inj h
      refine ⟨pt, rfl, hwt.symm, ?_⟩
      rw [← hwt]
      exact sortWins_ne_nil _ (parseWindows_ne_nil ws _ hne hp)

/-- C4: for FixedWindows successfully constructed from duration strings, the
period is the gcd of all window lengths divided by 10, the combined span is
the lcm of all window lengths, the period is nonzero, and bucket count times
period is exactly the combined span — the bucket count is the exact
quotient, with no truncation. -/
theorem c4_fixed_windows_layout (windows : List String) (W : FixedWindows)
    (hok : FixedWindows.ofArg (.strs windows) = .ok W) :
    W.toWindowsBase.period_millis =
      (gcdReduce (W.toWindowsBase.windows.map Prod.fst) : ℚ) / 10 ∧
    W.toWindowsBase.window_millis = lcmReduce (W.toWindowsBase.windows.map Prod.fst) ∧
    W.toWindowsBase.period_millis ≠ 0 ∧
    (W.toWindowsBase.total_number_of_buckets : ℚ) * W.toWindowsBase.period_millis =
      (W.toWindowsBase.window_millis : ℚ) := by
  obtain ⟨Wb, Wu⟩ := W
  unfold FixedWindows.ofArg at hok
  cases hsort : sort_windows_and_convert_to_millis (.strs windows) with
  | error e =>
    rw [hsort] at hok
    exact Except.noConfusion hok
  | ok wt =>
  simp only [hsort] at hok
  cases hinit : WindowsBase.init
      (mkRat (get_window_optimal_period_millis wt) bucketPerWindow) wt with
  | error e =>
    rw [hinit] at hok
    exact Except.noConfusion hok
  | ok base =>
  simp only [hinit] at hok
  obtain ⟨hb, -⟩ := FixedWindows.mk.inj (Except.ok.inj hok)
  subst hb
  dsimp only
  obtain ⟨hz, hper, hwin, hspan, hbuck⟩ := windowsBase_init_fields _ _ _ hinit
  obtain ⟨pt, -, -, hne⟩ := sort_windows_strs_ok windows wt hsort
  have hmapne : wt.map Prod.fst ≠ [] := by
    intro hcon
    exact hne (List.map_eq_nil_iff.mp hcon)
  have hg : gcdReduce (wt.map Prod.fst) ≠ 0 := by
    intro hcon
    apply hz
    show (mkRat (get_window_optimal_period_millis wt) bucketPerWindow).num = 0
    have he : get_window_optimal_period_millis wt = 0 := hcon
    rw [he]
    decide
  have hmk : (mkRat (get_window_optimal_period_millis wt) bucketPerWindow : ℚ) =
      (gcdReduce (wt.map Prod.fst) : ℚ) / 10 := by
    rw [Rat.mkRat_eq_divInt, Rat.divInt_eq_div]
    show ((gcdReduce (wt.map Prod.fst) : ℤ) : ℚ) / ((bucketPerWindow : ℤ) : ℚ) = _
    push_cast
    norm_num [bucketPerWindow]
  have hgpos : (0 : ℚ) < (gcdReduce (wt.map Prod.fst) : ℚ) / 10 := by
    have hp0 : 0 < gcdReduce (wt.map Prod.fst) := Nat.pos_of_ne_zero hg
    positivity
  have hmkpos : (0 : ℚ) < mkRat (get_window_optimal_period_millis wt) bucketPerWindow := by
    rw [hmk]
    exact hgpos
  obtain ⟨k, hk⟩ := gcdReduce_dvd_lcmReduce (wt.map Prod.fst) hmapne
  have hgq : (gcdReduce (wt.map Prod.fst) : ℚ) ≠ 0 := by exact_mod_cast hg
  have hquot : (lcmReduce (wt.map Prod.fst) : ℚ) /
      ((gcdReduce (wt.map Prod.fst) : ℚ) / 10) = ((10 * k : ℕ) : ℚ) := by
    rw [hk]
    push_cast
    field_simp
    ring
  have hbuckval : base.total_number_of_buckets = 10 * k := by
    rw [hbuck, pyIntDiv_eq_floor _ _ hmkpos, hmk, hquot, Nat.floor_natCast]
  refine ⟨?_, ?_, ?_, ?_⟩
  · rw [hper, hwin, hmk]
  · rw [hspan, hwin]
  · rw [hper, hmk]
    exact ne_of_gt hgpos
  · rw [hbuckval, hper, hmk, hspan, hk]
    push_cast
    field_simp
    ring

/-- C4, witness: FixedWindows of 1h, 2h, 6h — combined span the lcm 6h
(21600000 ms), period gcd/10 = 360000 ms, and 60 buckets exactly. -/
theorem c4_witness :
    FixedWindows.ofArg (.strs ["1h", "2h", "6h"]) = .ok fixedSet1h2h6h ∧
    (fixedSet1h2h6h.toWindowsBase.period_millis =
        (gcdReduce (fixedSet1h2h6h.toWindowsBase.windows.map Prod.fst) : ℚ) / 10 ∧
      fixedSet1h2h6h.toWindowsBase.window_millis =
        lcmReduce (fixedSet1h2h6h.toWindowsBase.windows.map Prod.fst) ∧
      fixedSet1h2h6h.toWindowsBase.period_millis ≠ 0 ∧
      (fixedSet1h2h6h.toWindowsBase.total_number_of_buckets : ℚ) *
          fixedSet1h2h6h.toWindowsBase.period_millis =
        (fixedSet1h2h6h.toWindowsBase.window_millis : ℚ)) :=
  ⟨by decide, c4_fixed_windows_layout ["1h", "2h", "6h"] fixedSet1h2h6h (by decide)⟩

/-! ### Claim C6 -/

theorem windowsBase_init_isOk (period : ℚ) (l : List (Nat × String))
    (hl : l ≠ []) (hz : period.num ≠ 0) :
    exceptIsOk (WindowsBase.init period l) = true := by
  cases l with
  | nil => exact absurd rfl hl
  | cons w ws =>
    have hz' : period ≠ 0 := fun h => hz (by rw [h]; rfl)
    simp [WindowsBase.init, hz, hz', exceptIsOk]

/-- C6: with every duration string parsing successfully, a nonzero explicit
period, and a nonempty window list, SlidingWindows construction succeeds if
and only if the period evenly divides every window length; when some window
is not divisible it raises the divisor ValueError; and a single
SlidingWindow whose period does not evenly divide its window raises a
ValueError as well. -/
theorem c6_sliding_explicit_period_divisibility
    (windows : List String) (wt : List (Nat × String)) (p : String) (pm : Nat)
    (w pw : String) (wm pwm : Nat)
    (hwt : parseWindows windows = .ok wt) (hne : windows ≠ [])
    (hp : parse_duration p = .ok pm) (hpm : pm ≠ 0)
    (hw : parse_duration w = .ok wm) (hpw : parse_duration pw = .ok pwm) (hpwm : pwm ≠ 0) :
    (exceptIsOk (SlidingWindows.init windows (some p)) = true ↔
      wt.all (fun t => t.1 % pm = 0) = true) ∧
    (wt.all (fun t => t.1 % pm = 0) = false →
      SlidingWindows.init windows (some p) =
        .error (.ValueError "Period must be a divisor of every window")) ∧
    (wm % pwm ≠ 0 →
      SlidingWindow.init w pw =
        .error (.ValueError "period must be a divider of the window")) := by
  have hpne : p ≠ "" := by
    intro hcon
    subst hcon
    exact Except.noConfusion hp
  have hsort : sort_windows_and_convert_to_millis (.strs windows) = .ok (sortWins wt) := by
    simp only [sort_windows_and_convert_to_millis, if_neg hne, hwt]
  have hwtne : wt ≠ [] := parseWindows_ne_nil windows wt hne hwt
  have hall_eq : (sortWins wt).all (fun t => decide (t.1 % pm = 0)) =
      wt.all (fun t => decide (t.1 % pm = 0)) := by
    rw [Bool.eq_iff_iff]
    simp only [List.all_eq_true]
    constructor
    · intro h t ht
      exact h t ((mem_sortWins t wt).mpr ht)
    · intro h t ht
      exact h t ((mem_sortWins t wt).mp ht)
  have hform : SlidingWindows.init windows (some p) =
      (if (sortWins wt).all (fun t => decide (t.1 % pm = 0)) then
        WindowsBase.init (mkRat pm 1) (sortWins wt)
      else .error (.ValueError "Period must be a divisor of every window")) := by
    simp only [SlidingWindows.init, hsort, if_neg hpne, hp, if_neg hpm]
  refine ⟨?_, ?_, ?_⟩
  · rw [hform, hall_eq]
    cases hall : wt.all (fun t => decide (t.1 % pm = 0)) with
    | true =>
      rw [if_pos rfl]
      simp only [iff_true]
      apply windowsBase_init_isOk
      · exact sortWins_ne_nil wt hwtne
      · rw [Rat.mkRat_one, Rat.num_intCast]
        exact_mod_cast hpm
    | false =>
      rw [if_neg (by simp)]
      simp [exceptIsOk]
  · intro hfalse
    rw [hform, hall_eq, hfalse]
    rfl
  · intro hmod
    simp only [SlidingWindow.init, hw, hpw, if_neg hpwm, if_neg hmod]

/-- C6, witness: SlidingWindows of 1h and 2h with period 30m succeeds (30m
divides both), and SlidingWindow of 1h with period 45m fails. -/
theorem c6_witness :
    (exceptIsOk (SlidingWindows.init ["1h", "2h"] (some "30m")) = true ↔
      List.all [(3600000, "1h"), (7200000, "2h")] (fun t => t.1 % 1800000 = 0) = true) ∧
    (List.all [(3600000, "1h"), (7200000, "2h")] (fun t => t.1 % 1800000 = 0) = false →
      SlidingWindows.init ["1h", "2h"] (some "30m") =
        .error (.ValueError "Period must be a divisor of every window")) ∧
    (3600000 % 2700000 ≠ 0 →
      SlidingWindow.init "1h" "45m" =
        .error (.ValueError "period must be a divider of the window")) :=
  c6_sliding_explicit_period_divisibility ["1h", "2h"] [(3600000, "1h"), (7200000, "2h")]
    "30m" 1800000 "1h" "45m" 3600000 2700000
    (by decide) (by decide) (by decide) (by decide) (by decide) (by decide) (by decide)

/-! ### Claims C7 and C10 -/

/-- C7: the emit-policy deserializer raises the missing-parameter ValueError
when mode maxEvents lacks a maxEvents key or mode afterDelay lacks a delay
key; raises the unexpected-arguments ValueError when entries remain after
the selected variant consumed its fields; and raises a TypeError naming the
offending value for an unrecognised mode. -/
theorem c7_emit_policy_validation (d d0 : PyDict) (mode : PyVal)
    (hpop : PyDict.pop d "mode" = some (mode, d0)) :
    (mode = .pyStr "maxEvents" → d0.pop "maxEvents" = none →
      dict_to_emit_policy d = .error (.ValueError
        "maxEvents parameter must be specified for maxEvents emit policy")) ∧
    (mode = .pyStr "afterDelay" → d0.pop "delay" = none →
      dict_to_emit_policy d = .error (.ValueError
        "delay parameter must be specified for afterDelay emit policy")) ∧
    (∀ pol leftover, build_emit_policy mode d0 = .ok (pol, leftover) → leftover ≠ [] →
      dict_to_emit_policy d =
        .error (.ValueError "got unexpected arguments for emit policy")) ∧
    (mode ≠ .pyStr "everyEvent" → mode ≠ .pyStr "maxEvents" → mode ≠ .pyStr "afterDelay" →
      mode ≠ .pyStr "afterWindow" → mode ≠ .pyStr "afterPeriod" →
      dict_to_emit_policy d =
        .error (.TypeError ("unsupported emit policy type: " ++ mode.render))) := by
  refine ⟨?_, ?_, ?_, ?_⟩
  · intro hm hnone
    subst hm
    have hb : build_emit_policy (.pyStr "maxEvents") d0 =
        .error (.ValueError "maxEvents parameter must be specified for maxEvents emit policy") := by
      simp [build_emit_policy, hnone]
    simp only [dict_to_emit_policy, hpop, hb]
  · intro hm hnone
    subst hm
    have hb : build_emit_policy (.pyStr "afterDelay") d0 =
        .error (.ValueError "delay parameter must be specified for afterDelay emit policy") := by
      simp [build_emit_policy, hnone]
    simp only [dict_to_emit_policy, hpop, hb]
  · intro pol leftover hb hl
    simp only [dict_to_emit_policy, hpop, hb, if_neg hl]
  · intro h1 h2 h3 h4 h5
    have hb : build_emit_policy mode d0 =
        .error (.TypeError ("unsupported emit policy type: " ++ mode.render)) := by
      simp only [build_emit_policy, if_neg h1, if_neg h2, if_neg h3, if_neg h4, if_neg h5]
    simp only [dict_to_emit_policy, hpop, hb]

/-- C7, witness: the four validation failures at concrete mappings. -/
theorem c7_witness :
    dict_to_emit_policy [("mode", .pyStr "maxEvents")] =
      .error (.ValueError "maxEvents parameter must be specified for maxEvents emit policy") ∧
    dict_to_emit_policy [("mode", .pyStr "afterDelay")] =
      .error (.ValueError "delay parameter must be specified for afterDelay emit policy") ∧
    dict_to_emit_policy [("mode", .pyStr "everyEvent"), ("extraKey", .pyInt 1)] =
      .error (.ValueError "got unexpected arguments for emit policy") ∧
    dict_to_emit_policy [("mode", .pyStr "bogus")] =
      .error (.TypeError "unsupported emit policy type: bogus") :=
  ⟨(c7_emit_policy_validation [("mode", .pyStr "maxEvents")] [] (.pyStr "maxEvents")
      (by decide)).1 rfl (by decide),
    (c7_emit_policy_validation [("mode", .pyStr "afterDelay")] [] (.pyStr "afterDelay")
      (by decide)).2.1 rfl (by decide),
    (c7_emit_policy_validation [("mode", .pyStr "everyEvent"), ("extraKey", .pyInt 1)]
      [("extraKey", .pyInt 1)] (.pyStr "everyEvent") (by decide)).2.2.1
      (.EveryEvent .All) [("extraKey", .pyInt 1)] (by decide) (by decide),
    (c7_emit_policy_validation [("mode", .pyStr "bogus")] [] (.pyStr "bogus")
      (by decide)).2.2.2 (by decide) (by decide) (by decide) (by decide) (by decide)⟩

/-- Any built AfterMaxEvent policy has no timeout and emission type All. -/
theorem build_emit_policy_max_event (mode : PyVal) (d : PyDict) (v : PyVal)
    (t : Option PyVal) (em : EmissionType) (l : PyDict)
    (hb : build_emit_policy mode d = .ok (.AfterMaxEvent v t em, l)) :
    t = none ∧ em = .All := by
  unfold build_emit_policy at hb
  split_ifs at hb
  · exact absurd (Except.ok.inj hb) (by simp)
  · cases hp : d.pop "maxEvents" with
    | none =>
      rw [hp] at hb
      exact Except.noConfusion hb
    | some vd =>
      obtain ⟨vv, d'⟩ := vd
      rw [hp] at hb
      obtain ⟨h1', -⟩ := Prod.mk.inj (Except.ok.inj hb)
      injection h1' with hv ht hem
      exact ⟨ht.symm, hem.symm⟩
  · cases hp : d.pop "delay" with
    | none =>
      rw [hp] at hb
      exact Except.noConfusion hb
    | some vd =>
      obtain ⟨vv, d'⟩ := vd
      rw [hp] at hb
      exact absurd (Except.ok.inj hb) (by simp)
  · cases hp : d.pop "delay" with
    | none =>
      rw [hp] at hb
      exact absurd (Except.ok.inj hb) (by simp)
    | some vd =>
      obtain ⟨vv, d'⟩ := vd
      rw [hp] at hb
      exact absurd (Except.ok.inj hb) (by simp)
  · cases hp : d.pop "delay" with
    | none =>
      rw [hp] at hb
      exact absurd (Except.ok.inj hb) (by simp)
    | some vd =>
      obtain ⟨vv, d'⟩ := vd
      rw [hp] at hb
      exact absurd (Except.ok.inj hb) (by simp)

/-- C10: whenever the emit-policy deserializer accepts a mapping and
produces an AfterMaxEvent policy - which is the only way a mode maxEvents
mapping is accepted - the policy has no timeout and emission type All: no
configuration key can set either. -/
theorem c10_max_events_policy_has_no_timeout (d : PyDict) (v : PyVal)
    (t : Option PyVal) (em : EmissionType)
    (hok : dict_to_emit_policy d = .ok (.AfterMaxEvent v t em)) :
    t = none ∧ em = .All := by
  unfold dict_to_emit_policy at hok
  cases hpop : PyDict.pop d "mode" with
  | none =>
    rw [hpop] at hok
    exact Except.noConfusion hok
  | some md =>
    obtain ⟨mode, d0⟩ := md
    simp only [hpop] at hok
    cases hb : build_emit_policy mode d0 with
    | error e =>
      rw [hb] at hok
      exact Except.noConfusion hok
    | ok pl =>
      obtain ⟨pol, leftover⟩ := pl
      simp only [hb] at hok
      by_cases hl : leftover = []
      · rw [if_pos hl] at hok
        have hpol := Except.ok.inj hok
        subst hpol
        exact build_emit_policy_max_event mode d0 v t em leftover hb
      · rw [if_neg hl] at hok
        exact Except.noConfusion hok

/-- C10, witness: a mapping with mode maxEvents and maxEvents 100 parses to
a policy with no timeout and emission type All. -/
theorem c10_witness :
    dict_to_emit_policy [("mode", .pyStr "maxEvents"), ("maxEvents", .pyInt 100)] =
      .ok (.AfterMaxEvent (.pyInt 100) none .All) ∧
    ((none : Option PyVal) = none ∧ EmissionType.All = EmissionType.All) :=
  ⟨by decide,
    c10_max_events_policy_has_no_timeout
      [("mode", .pyStr "maxEvents"), ("maxEvents", .pyInt 100)]
      (.pyInt 100) none .All (by decide)⟩

/-! ### Claims C8 and C9 -/

/-- C8: should_aggregate returns true exactly when no filter is set, and
otherwise returns precisely the filter's boolean result on the event; the
embedding is a pure Lean function of the aggregator and the event, so
freedom from side effects is structural. -/
theorem c8_should_aggregate_mirrors_filter (fa : FieldAggregator) (element : Event) :
    fa.should_aggregate element = (fa.aggr_filter.map (fun f => f element)).getD true := by
  cases h : fa.aggr_filter <;> simp [FieldAggregator.should_aggregate, h]

/-- C9: an Event constructed with an integer time value gets the UTC instant
that many seconds after the Unix epoch, via utcfromtimestamp, which agrees
with the spec reading; with no time argument the creation-time clock value
is used, so the time field (a total field of the record, never an optional
one) is a concrete timestamp in every successful construction. -/
theorem c9_event_int_time_epoch_seconds (now : Datetime) (body : PyVal)
    (key : Option PyVal) (n : Int) (id : Option String) (headers : Option PyDict)
    (method : Option String) (path : Option String) (content_type : Option PyVal) :
    (Event.init now body key (some (.int n)) id headers method path content_type).map
        Event.time = .ok (epochPlusSeconds n) ∧
    datetime_utcfromtimestamp n = epochPlusSeconds n ∧
    (Event.init now body key none id headers method path content_type).map Event.time =
      .ok now :=
  ⟨rfl, rfl, rfl⟩
